import Mathlib

/-!
Verification of the policy_agent repository: a shallow embedding of the
Policy Decision Engine (src/guardrails/policy_engine.py), the mock cloud
infrastructure (src/mcp_server/tools.py), and the Decision Gateway
(src/mcp_server/server.py), together with theorems settling the behavioural
claims of the specification.

Modelling conventions:
- Python dicts keyed by strings become association lists `List (String × _)`;
  Python sets become `List String` with set semantics for membership
  (insertion deduplicates, removal filters).
- Python machine-independent ints become `Int`.
- `datetime.now()` timestamps, emoji and the exact `str(dict)` rendering of
  results carry no behavioural content and are elided; the single place the
  rendering is load-bearing (the gateway tests `"success" in str(result).lower()`
  after a restart) is modelled by `restart_mentions_success` below.
- Raised exceptions become explicit constructors (`Decision.keyError`,
  `ExecOutcome.err`, `GatewayOutcome.internalError`, `GatewayOutcome.httpError`).
-/

/-- One mode entry of the policy document (policies/ops_policy.json schema as
read by `PolicyEngine.validate`): `allowed_tools`, `blocked_tools`,
`rationale`, and `service_restrictions.enabled` (the Python code reads the
latter with `.get(..., {}) .get("enabled", False)`, so a missing key is the
same as `false`, which the plain Bool field captures). -/
structure ModePolicy where
  allowed_tools : List String
  blocked_tools : List String
  rationale : String
  service_restrictions_enabled : Bool
deriving DecidableEq, Repr

/-- The policy document: `global_rules.always_blocked` plus the per-mode map
`modes` (an association list keyed by mode name). -/
structure PolicyDoc where
  always_blocked : List String
  modes : List (String × ModePolicy)
deriving DecidableEq, Repr

/-- Outcome of `PolicyEngine.validate`: the Python code either returns `True`
(`allow`), raises `PolicyViolationError(message, ..., reason)` (`deny`), or
raises `KeyError` when the current mode is absent from the policy document
(`keyError`; unreachable through `set_mode`, which checks membership). -/
inductive Decision where
  | allow : Decision
  | deny (message : String) (reason : String) : Decision
  | keyError (mode : String) : Decision
deriving DecidableEq, Repr

/-- The argument map of a tool request. The six tools of the catalog read
exactly these keys; a field left `none` models an absent key. -/
structure Args where
  service_name : Option String := none
  count : Option Int := none
  lines : Option Int := none
  db_name : Option String := none
deriving DecidableEq, Repr

def no_args : Args := {}

/-- `PolicyEngine._is_modification_tool`: the fixed list
`['restart_service', 'scale_fleet', 'delete_database']`. -/
def modification_tools : List String :=
  ["restart_service", "scale_fleet", "delete_database"]

def is_modification_tool (tool_name : String) : Bool :=
  modification_tools.contains tool_name

/-- Message of the global-block denial (Python wraps the tool name in single
quote marks; the quote characters are elided here). -/
def global_block_message (tool_name : String) : String :=
  tool_name ++ " is permanently blocked - destructive operation"

def mode_block_message (tool_name mode : String) : String :=
  tool_name ++ " blocked in " ++ mode ++ " mode"

def not_whitelisted_message (tool_name mode : String) : String :=
  tool_name ++ " not whitelisted for " ++ mode ++ " mode"

def missing_target_message (tool_name : String) : String :=
  tool_name ++ " requires a service_name parameter"

/-- Message of the target-is-healthy denial; the Python message interpolates
`list(self.unhealthy_services)`, rendered here by intercalation. -/
def target_healthy_message (service_name : String) (unhealthy : List String) : String :=
  "Cannot modify " ++ service_name ++
    " - service is healthy. Only broken services can be modified: " ++
    String.intercalate ", " unhealthy

/-- `PolicyEngine.validate(tool_name, args)` with the engine state
(`self.policy`, `self.current_mode`, `self.unhealthy_services`) passed
explicitly. Check order exactly as in the source: global block, mode lookup,
mode block, whitelist, then for modification tools the target-presence check
(Python truthiness: a missing key or an empty string both fail `if not
service_name`) and, nested under `current_mode == "EMERGENCY"` and
`service_restrictions.enabled`, the unhealthy-target gate. -/
def validate (policy : PolicyDoc) (current_mode : String)
    (unhealthy_services : List String) (tool_name : String) (args : Args) :
    Decision :=
  if policy.always_blocked.contains tool_name then
    .deny (global_block_message tool_name) "Globally blocked"
  else
    match List.lookup current_mode policy.modes with
    | none => .keyError current_mode
    | some mode_policy =>
      if mode_policy.blocked_tools.contains tool_name then
        .deny (mode_block_message tool_name current_mode) mode_policy.rationale
      else if ¬ mode_policy.allowed_tools.contains tool_name then
        .deny (not_whitelisted_message tool_name current_mode)
          "Not in allowed tools list"
      else if is_modification_tool tool_name then
        match args.service_name with
        | none => .deny (missing_target_message tool_name) "Missing service target"
        | some service_name =>
          if service_name = "" then
            .deny (missing_target_message tool_name) "Missing service target"
          else if current_mode = "EMERGENCY" then
            if mode_policy.service_restrictions_enabled then
              if ¬ unhealthy_services.contains service_name then
                .deny (target_healthy_message service_name unhealthy_services)
                  "Target service is not unhealthy"
              else .allow
            else .allow
          else .allow
      else .allow

/-- `PolicyEngine.register_unhealthy_service`: Python `set.add`. -/
def register_unhealthy_service (unhealthy : List String) (service_name : String) :
    List String :=
  if unhealthy.contains service_name then unhealthy else unhealthy ++ [service_name]

/-- `PolicyEngine.mark_service_healthy`: Python `set.discard`. -/
def mark_service_healthy (unhealthy : List String) (service_name : String) :
    List String :=
  unhealthy.filter (fun x => x ≠ service_name)

/-- A concrete policy document used to instantiate theorems: two modes as the
spec describes them (NORMAL read-only, EMERGENCY restricted-write with the
service restriction enabled), `delete_database` globally blocked. -/
def sample_policy : PolicyDoc :=
  { always_blocked := ["delete_database"],
    modes :=
      [("NORMAL",
        { allowed_tools := ["get_service_status", "read_logs", "list_services"],
          blocked_tools := ["restart_service", "scale_fleet", "delete_database"],
          rationale := "Read-only mode",
          service_restrictions_enabled := false }),
       ("EMERGENCY",
        { allowed_tools := ["get_service_status", "read_logs", "list_services",
                            "restart_service", "scale_fleet"],
          blocked_tools := ["delete_database"],
          rationale := "Emergency corrective actions",
          service_restrictions_enabled := true })] }

/-- C1: for every tool in the global always-blocked set, `validate` denies
with reason Globally blocked, whatever the mode, the unhealthy set and the
arguments; the check precedes every other one, including the mode lookup. -/
theorem global_block_dominates (policy : PolicyDoc) (current_mode : String)
    (unhealthy_services : List String) (tool_name : String) (args : Args)
    (h : policy.always_blocked.contains tool_name = true) :
    validate policy current_mode unhealthy_services tool_name args =
      .deny (global_block_message tool_name) "Globally blocked" := by
  have h' : tool_name ∈ policy.always_blocked := by simpa using h
  simp [validate, h']

theorem global_block_dominates_witness :
    (sample_policy.always_blocked.contains "delete_database" = true) ∧
    validate sample_policy "NORMAL" ["cache"] "delete_database" no_args =
      .deny (global_block_message "delete_database") "Globally blocked" :=
  ⟨by decide,
   global_block_dominates sample_policy "NORMAL" ["cache"] "delete_database"
     no_args (by decide)⟩

/-- C2 (amended): in EMERGENCY mode with the service restriction enabled, for
a restart that passes the global-block, mode-block and whitelist checks and
names a nonempty target R, `validate` allows exactly when R is in the
unhealthy set, and otherwise denies with reason Target service is not
unhealthy. (The nonemptiness of R is forced by Python truthiness: an empty
string fails the target-presence check first.) -/
theorem emergency_restart_allow_iff_unhealthy (policy : PolicyDoc)
    (mp : ModePolicy) (unhealthy : List String) (R : String)
    (hm : List.lookup "EMERGENCY" policy.modes = some mp)
    (hflag : mp.service_restrictions_enabled = true)
    (hg : "restart_service" ∉ policy.always_blocked)
    (hb : "restart_service" ∉ mp.blocked_tools)
    (ha : "restart_service" ∈ mp.allowed_tools)
    (hR : R ≠ "") :
    (validate policy "EMERGENCY" unhealthy "restart_service"
        { service_name := some R } = .allow ↔ R ∈ unhealthy) ∧
    (R ∉ unhealthy →
      validate policy "EMERGENCY" unhealthy "restart_service"
          { service_name := some R } =
        .deny (target_healthy_message R unhealthy)
          "Target service is not unhealthy") := by
  by_cases hu : R ∈ unhealthy
  · simp [validate, hm, hg, hb, ha, hR, hflag, is_modification_tool,
      modification_tools, hu]
  · simp [validate, hm, hg, hb, ha, hR, hflag, is_modification_tool,
      modification_tools, hu]

theorem emergency_restart_allow_iff_unhealthy_witness :
    (validate sample_policy "EMERGENCY" ["cache"] "restart_service"
        { service_name := some "cache" } = .allow ↔ "cache" ∈ ["cache"]) ∧
    ("cache" ∉ (["cache"] : List String) →
      validate sample_policy "EMERGENCY" ["cache"] "restart_service"
          { service_name := some "cache" } =
        .deny (target_healthy_message "cache" ["cache"])
          "Target service is not unhealthy") :=
  emergency_restart_allow_iff_unhealthy sample_policy
    { allowed_tools := ["get_service_status", "read_logs", "list_services",
                        "restart_service", "scale_fleet"],
      blocked_tools := ["delete_database"],
      rationale := "Emergency corrective actions",
      service_restrictions_enabled := true }
    ["cache"] "cache" (by decide) (by decide) (by decide) (by decide)
    (by decide) (by decide)

/-- C2 (counterexample to the claim as stated): with the empty string as
target — which is in no unhealthy set's way of being denied as healthy —
`validate` denies with reason Missing service target, not with reason Target
service is not unhealthy as the claim requires for every denied R. -/
theorem emergency_restart_empty_target_counterexample :
    validate sample_policy "EMERGENCY" ["cache"] "restart_service"
        { service_name := some "" } =
      .deny (missing_target_message "restart_service") "Missing service target" ∧
    "Missing service target" ≠ "Target service is not unhealthy" := by
  decide

/-- A policy document with a third mode MAINTENANCE that carries
`service_restrictions.enabled = true`; the document is schema-valid injected
configuration, used to probe whether the health gate honours the flag for
modes other than the one literally named EMERGENCY. -/
def maintenance_policy : PolicyDoc :=
  { always_blocked := ["delete_database"],
    modes :=
      sample_policy.modes ++
      [("MAINTENANCE",
        { allowed_tools := ["get_service_status", "read_logs", "list_services",
                            "restart_service", "scale_fleet"],
          blocked_tools := ["delete_database"],
          rationale := "Maintenance window",
          service_restrictions_enabled := true })] }

/-- C4 (amended): for a whitelisted mutation-class tool with a present
(nonempty) target that passes the global-block and mode-block checks, the
health gate fires exactly when the current mode is the literal string
EMERGENCY AND that mode's policy has the service restriction enabled AND the
target is not in the unhealthy set; in every other combination — including a
mode other than EMERGENCY whose policy carries the flag — `validate`
allows. -/
theorem health_gate_iff_emergency_and_flag (policy : PolicyDoc)
    (mode : String) (mp : ModePolicy) (unhealthy : List String)
    (tool_name R : String)
    (hm : List.lookup mode policy.modes = some mp)
    (hg : tool_name ∉ policy.always_blocked)
    (hb : tool_name ∉ mp.blocked_tools)
    (ha : tool_name ∈ mp.allowed_tools)
    (htool : is_modification_tool tool_name = true)
    (hR : R ≠ "") :
    (validate policy mode unhealthy tool_name { service_name := some R } =
        .allow ↔
      ¬ (mode = "EMERGENCY" ∧ mp.service_restrictions_enabled = true ∧
          R ∉ unhealthy)) ∧
    (mode = "EMERGENCY" → mp.service_restrictions_enabled = true →
      R ∉ unhealthy →
      validate policy mode unhealthy tool_name { service_name := some R } =
        .deny (target_healthy_message R unhealthy)
          "Target service is not unhealthy") := by
  by_cases hmode : mode = "EMERGENCY"
  · subst hmode
    by_cases hflag : mp.service_restrictions_enabled = true
    · by_cases hu : R ∈ unhealthy
      · simp [validate, hm, hg, hb, ha, htool, hR, hflag, hu]
      · simp [validate, hm, hg, hb, ha, htool, hR, hflag, hu]
    · simp [validate, hm, hg, hb, ha, htool, hR, hflag]
  · simp [validate, hm, hg, hb, ha, htool, hR, hmode]

theorem health_gate_iff_emergency_and_flag_witness :
    (validate sample_policy "EMERGENCY" [] "restart_service"
        { service_name := some "database" } = .allow ↔
      ¬ ("EMERGENCY" = "EMERGENCY" ∧ true = true ∧
          "database" ∉ ([] : List String))) ∧
    ("EMERGENCY" = "EMERGENCY" → (true : Bool) = true →
      "database" ∉ ([] : List String) →
      validate sample_policy "EMERGENCY" [] "restart_service"
          { service_name := some "database" } =
        .deny (target_healthy_message "database" [])
          "Target service is not unhealthy") :=
  health_gate_iff_emergency_and_flag sample_policy "EMERGENCY"
    { allowed_tools := ["get_service_status", "read_logs", "list_services",
                        "restart_service", "scale_fleet"],
      blocked_tools := ["delete_database"],
      rationale := "Emergency corrective actions",
      service_restrictions_enabled := true }
    [] "restart_service" "database" (by decide) (by decide) (by decide)
    (by decide) (by decide) (by decide)

/-- C4 (counterexample to the claim as stated): in mode MAINTENANCE, whose
policy has `service_restrictions.enabled = true`, a whitelisted restart of a
target that is NOT in the unhealthy set is allowed — the code enforces the
health gate only under the hardcoded mode name EMERGENCY, so the flag alone
does not enforce it. -/
theorem health_gate_not_flag_only_counterexample :
    (List.lookup "MAINTENANCE" maintenance_policy.modes).map
        ModePolicy.service_restrictions_enabled = some true ∧
    validate maintenance_policy "MAINTENANCE" [] "restart_service"
        { service_name := some "database" } = .allow := by
  decide

/-- C5: `scale_fleet` is classified as a modification tool, so a fleet-wide
scale request carrying only a count — the only calling convention the tool
catalog and the agent wrapper provide for it — is denied with Missing service
target even though it passes the global-block, mode-block and whitelist
checks; the spec says such a request must be allowed once those three checks
pass. -/
theorem scale_fleet_count_only_denied :
    is_modification_tool "scale_fleet" = true ∧
    validate sample_policy "EMERGENCY" ["cache"] "scale_fleet"
        { count := some 5 } =
      .deny (missing_target_message "scale_fleet") "Missing service target" := by
  decide

/-- One entry of `CloudInfrastructure.execution_log`; the
`datetime.now().isoformat()` timestamp is not modelled, the details dict is
rendered as a plain string. -/
structure LogEntry where
  action : String
  details : String
deriving DecidableEq, Repr

/-- `CloudInfrastructure`: the health map `services`, `fleet_size` and the
bounded `execution_log`. -/
structure Infra where
  services : List (String × String)
  fleet_size : Int
  execution_log : List LogEntry
deriving DecidableEq, Repr

/-- `CloudInfrastructure._log_action`: append, then keep only the last 100
entries. -/
def log_action (log : List LogEntry) (action details : String) : List LogEntry :=
  let l := log ++ [{ action := action, details := details }]
  if l.length > 100 then l.drop (l.length - 100) else l

/-- `CloudInfrastructure.set_service_health`: updates the health map and logs
a health_change — but ONLY when the service already exists in the map; an
unknown service is silently ignored. -/
def set_service_health (infra : Infra) (service status : String) : Infra :=
  match List.lookup service infra.services with
  | none => infra
  | some old_status =>
    { infra with
      services := infra.services.map
        (fun p => if p.1 = service then (p.1, status) else p),
      execution_log := log_action infra.execution_log "health_change"
        (service ++ ": " ++ old_status ++ " -> " ++ status) }

/-- `CloudInfrastructure.get_unhealthy_services`. -/
def get_unhealthy_services (infra : Infra) : List String :=
  (infra.services.filter (fun p => p.2 = "critical" ∨ p.2 = "degraded")).map
    Prod.fst

/-- Result values of the six tools (the Python functions return dicts, then
the module-level wrappers stringify them; the fields kept here are the ones
behaviour depends on). -/
inductive ToolResult where
  | statusSingle (service health : String) (is_healthy : Bool)
  | statusNotFound (service : String) (available : List String)
  | statusAll (services : List (String × String)) (fleet_size : Int)
      (unhealthy : List String)
  | servicesList (names : List String) (count : Nat)
  | logs (log_lines : List String) (total_available : Nat)
  | restartOk (service old_health : String)
  | restartNotFound (service : String) (available : List String)
  | scaleOk (old_size new_size : Int)
  | scaleErr (message : String)
  | deleteBlockedMsg (db_name : String)
deriving DecidableEq, Repr

/-- `CloudInfrastructure.list_services`. -/
def list_services (infra : Infra) : ToolResult × Infra :=
  let infra1 :=
    { infra with execution_log := log_action infra.execution_log "list_services" "" }
  (.servicesList (infra1.services.map Prod.fst) infra1.services.length, infra1)

/-- `CloudInfrastructure.get_service_status`: logs, then either a single
service report (Python truthiness: `if service_name:` — the all-services
branch is taken for None AND for the empty string), a not-found error dict,
or a full snapshot. -/
def get_service_status (infra : Infra) (service_name : Option String) :
    ToolResult × Infra :=
  let infra1 :=
    { infra with
      execution_log := log_action infra.execution_log "get_service_status"
        (service_name.getD "None") }
  match service_name with
  | some s =>
    if s = "" then
      (.statusAll infra1.services infra1.fleet_size (get_unhealthy_services infra1),
       infra1)
    else
      match List.lookup s infra1.services with
      | none => (.statusNotFound s (infra1.services.map Prod.fst), infra1)
      | some h => (.statusSingle s h (h == "healthy"), infra1)
  | none =>
    (.statusAll infra1.services infra1.fleet_size (get_unhealthy_services infra1),
     infra1)

/-- Python list slicing `xs[:n]` for possibly negative n. -/
def py_take (n : Int) (xs : List String) : List String :=
  if 0 ≤ n then xs.take n.toNat else xs.take ((xs.length : Int) + n).toNat

/-- `CloudInfrastructure.read_logs`: logs the action, builds one line per
service whose health is healthy, degraded or critical, appends three general
lines, and returns the first `lines` entries. -/
def read_logs (infra : Infra) (lines : Int) : ToolResult × Infra :=
  let infra1 :=
    { infra with
      execution_log := log_action infra.execution_log "read_logs" (toString lines) }
  let entries := infra1.services.filterMap (fun p =>
    if p.2 = "healthy" then some ("[INFO] " ++ p.1 ++ ": Operating normally")
    else if p.2 = "degraded" then
      some ("[WARN] " ++ p.1 ++ ": Performance degraded, response time elevated")
    else if p.2 = "critical" then
      some ("[ERROR] " ++ p.1 ++ ": Service experiencing critical issues!")
    else none)
  let entries := entries ++
    ["[INFO] Fleet health check: " ++ toString infra1.fleet_size ++
       " instances responding",
     "[INFO] Total services monitored: " ++ toString infra1.services.length,
     "[INFO] Execution log entries: " ++ toString infra1.execution_log.length]
  (.logs (py_take lines entries) entries.length, infra1)

/-- `CloudInfrastructure.restart_service`: logs, returns a not-found error
dict for an unknown service, otherwise sets the service to healthy (direct
assignment, no health_change log entry) and reports success with the old
health. -/
def restart_service (infra : Infra) (service_name : String) : ToolResult × Infra :=
  let infra1 :=
    { infra with
      execution_log := log_action infra.execution_log "restart_service" service_name }
  match List.lookup service_name infra1.services with
  | none => (.restartNotFound service_name (infra1.services.map Prod.fst), infra1)
  | some old_health =>
    (.restartOk service_name old_health,
     { infra1 with
       services := infra1.services.map
         (fun p => if p.1 = service_name then (p.1, "healthy") else p) })

/-- `CloudInfrastructure.scale_fleet`: logs, rejects counts below 1 or above
100 without touching the fleet size, otherwise sets the fleet size. -/
def scale_fleet (infra : Infra) (count : Int) : ToolResult × Infra :=
  let infra1 :=
    { infra with
      execution_log := log_action infra.execution_log "scale_fleet" (toString count) }
  if count < 1 then (.scaleErr "Fleet size must be at least 1", infra1)
  else if count > 100 then
    (.scaleErr "Fleet size cannot exceed 100 instances", infra1)
  else (.scaleOk infra1.fleet_size count, { infra1 with fleet_size := count })

/-- `CloudInfrastructure.delete_database`: logs the attempt and returns the
error dict; it never mutates services or fleet. -/
def delete_database (infra : Infra) (db_name : String) : ToolResult × Infra :=
  let infra1 :=
    { infra with
      execution_log := log_action infra.execution_log "delete_database_attempt" db_name }
  (.deleteBlockedMsg db_name, infra1)

/-- The module-level `cloud_infra = CloudInfrastructure()` initial state. -/
def initial_infra : Infra :=
  { services := [("web-server", "healthy"), ("api-gateway", "healthy"),
                 ("database", "healthy"), ("cache", "healthy"),
                 ("load-balancer", "healthy")],
    fleet_size := 3,
    execution_log := [] }

/-- Outcome of `_execute_tool_function`: a result plus the mutated
infrastructure, or a raised ValueError (unknown tool, or a TypeError from
calling a tool with arguments it does not accept — in which case the tool
body never runs and the infrastructure is untouched). -/
inductive ExecOutcome where
  | ok (r : ToolResult) (infra : Infra)
  | err (msg : String)
deriving DecidableEq, Repr

/-- `_execute_tool_function(tool_name, arguments)`: route by name over the
fixed tool map; an absent name raises Unknown tool, a keyword argument the
target function does not accept (or a missing required one) raises Invalid
arguments. -/
def execute_tool_function (tool_name : String) (args : Args) (infra : Infra) :
    ExecOutcome :=
  if tool_name = "get_service_status" then
    if args.count = none ∧ args.lines = none ∧ args.db_name = none then
      .ok (get_service_status infra args.service_name).1
        (get_service_status infra args.service_name).2
    else .err ("Invalid arguments for " ++ tool_name)
  else if tool_name = "read_logs" then
    if args.service_name = none ∧ args.count = none ∧ args.db_name = none then
      .ok (read_logs infra (args.lines.getD 10)).1
        (read_logs infra (args.lines.getD 10)).2
    else .err ("Invalid arguments for " ++ tool_name)
  else if tool_name = "restart_service" then
    if args.count = none ∧ args.lines = none ∧ args.db_name = none then
      match args.service_name with
      | some s => .ok (restart_service infra s).1 (restart_service infra s).2
      | none => .err ("Invalid arguments for " ++ tool_name)
    else .err ("Invalid arguments for " ++ tool_name)
  else if tool_name = "scale_fleet" then
    if args.service_name = none ∧ args.lines = none ∧ args.db_name = none then
      match args.count with
      | some c => .ok (scale_fleet infra c).1 (scale_fleet infra c).2
      | none => .err ("Invalid arguments for " ++ tool_name)
    else .err ("Invalid arguments for " ++ tool_name)
  else if tool_name = "delete_database" then
    if args.service_name = none ∧ args.count = none ∧ args.lines = none then
      match args.db_name with
      | some d => .ok (delete_database infra d).1 (delete_database infra d).2
      | none => .err ("Invalid arguments for " ++ tool_name)
    else .err ("Invalid arguments for " ++ tool_name)
  else if tool_name = "list_services" then
    if args = no_args then
      .ok (list_services infra).1 (list_services infra).2
    else .err ("Invalid arguments for " ++ tool_name)
  else .err ("Unknown tool: " ++ tool_name)

/-- Impact report of `ImpactSimulator.simulate`; `none` models the TypeError
raised by `(target - current)` when scale_fleet is simulated without a count
(and the constant numeric fields of the dicts are kept where they depend on
the input). -/
inductive ImpactReport where
  | restartImpact (service : Option String) (current_health : String)
  | scaleImpact (current_size target_size cost_delta : Int)
  | deleteImpact
  | genericImpact
deriving DecidableEq, Repr

/-- `ImpactSimulator.simulate`. -/
def simulate (tool_name : String) (args : Args) (infra : Infra) :
    Option ImpactReport :=
  if tool_name = "restart_service" then
    some (.restartImpact args.service_name
      (match args.service_name with
       | some s => (List.lookup s infra.services).getD "unknown"
       | none => "unknown"))
  else if tool_name = "scale_fleet" then
    match args.count with
    | none => none
    | some t => some (.scaleImpact infra.fleet_size t ((t - infra.fleet_size) * 4000))
  else if tool_name = "delete_database" then some .deleteImpact
  else some .genericImpact

/-- The server's mutable state: the infrastructure singleton plus the policy
engine's `current_mode` and `unhealthy_services` (the loaded policy document
is immutable and passed separately). -/
structure ServerState where
  infra : Infra
  current_mode : String
  unhealthy_services : List String
deriving DecidableEq, Repr

def initial_state : ServerState :=
  { infra := initial_infra, current_mode := "NORMAL", unhealthy_services := [] }

/-- `_update_unhealthy_services(service_name, status_result)`: syncs the
policy engine's unhealthy set toward the infrastructure health map — all
services when no target was given (`is None`, so an empty-string target takes
the single-service branch), else the one target, defaulting to unknown for an
absent key; a health value that is neither critical, degraded nor healthy
changes nothing. -/
def update_unhealthy_services (service_name : Option String)
    (infra_services : List (String × String)) (unhealthy : List String) :
    List String :=
  match service_name with
  | none =>
    infra_services.foldl (fun u p =>
      if p.2 = "critical" ∨ p.2 = "degraded" then register_unhealthy_service u p.1
      else if p.2 = "healthy" then mark_service_healthy u p.1
      else u) unhealthy
  | some s =>
    let h := (List.lookup s infra_services).getD "unknown"
    if h = "critical" ∨ h = "degraded" then register_unhealthy_service unhealthy s
    else if h = "healthy" then mark_service_healthy unhealthy s
    else unhealthy

/-- Whether `str(result).lower()` of a restart result contains the substring
success: the success dict always does (its status field is the word itself);
the not-found dict does only when the requested service name carries the
substring (its other keys and the five fixed service names do not). -/
def str_contains (s sub : String) : Bool := (s.splitOn sub).length > 1

def restart_mentions_success : ToolResult → Bool
  | .restartOk _ _ => true
  | .restartNotFound service _ => str_contains service.toLower "success"
  | _ => false

/-- A request to POST /tools/execute. -/
structure ToolRequest where
  tool_name : String
  arguments : Args := {}
  execution_mode : String := "REAL"
deriving DecidableEq, Repr

inductive ExecResultVal where
  | toolRes (r : ToolResult)
  | shadowRes (impact : ImpactReport)
deriving DecidableEq, Repr

/-- The `ToolResponse` pydantic model. -/
structure ToolResponse where
  success : Bool
  result : Option ExecResultVal := none
  error : Option String := none
  policy_violation : Bool := false
  blocked_reason : Option String := none
deriving DecidableEq, Repr

/-- What the endpoint hands back to the transport: a ToolResponse, a raised
HTTPException, or an exception that escapes the handler (KeyError from an
invalid mode, the unguarded ValueError of STEP 1, a TypeError inside the
shadow simulation). -/
inductive GatewayOutcome where
  | response (r : ToolResponse)
  | httpError (code : Int) (detail : String)
  | internalError (msg : String)
deriving DecidableEq, Repr

/-- Python `str.upper()`, written over the character list. -/
def py_upper (s : String) : String := String.mk (s.data.map Char.toUpper)

/-- `(request.execution_mode or "REAL").upper()`. -/
def normalize_execution_mode (m : String) : String :=
  py_upper (if m = "" then "REAL" else m)

/-- The `/tools/execute` endpoint (`execute_tool` in server.py):
STEP 1 — get_service_status executes immediately (no policy check, no
try/except) and feeds the result into the unhealthy-set sync;
STEP 2 — every other tool goes through `PolicyEngine.validate`, a denial
becoming a structured response with `policy_violation = true` and no state
change; STEP 3 — execution-mode dispatch (400 on an unknown mode, SHADOW
simulates with no state change), then real execution, and when a restart
result mentions success the target is marked healthy in both the engine set
and the infrastructure map (skipped for a falsy target name). -/
def execute_tool (policy : PolicyDoc) (req : ToolRequest) (s : ServerState) :
    GatewayOutcome × ServerState :=
  if req.tool_name = "get_service_status" then
    match execute_tool_function req.tool_name req.arguments s.infra with
    | .err m => (.internalError m, s)
    | .ok r infra1 =>
      (.response { success := true, result := some (.toolRes r) },
       { s with
         infra := infra1,
         unhealthy_services := update_unhealthy_services
           req.arguments.service_name infra1.services s.unhealthy_services })
  else
    match validate policy s.current_mode s.unhealthy_services req.tool_name
        req.arguments with
    | .keyError m => (.internalError ("KeyError: " ++ m), s)
    | .deny message reason =>
      (.response { success := false,
                   error := some ("Policy violation: " ++ reason),
                   policy_violation := true,
                   blocked_reason := some message }, s)
    | .allow =>
      let em := normalize_execution_mode req.execution_mode
      if em ≠ "REAL" ∧ em ≠ "SHADOW" then
        (.httpError 400 "Invalid execution_mode. Use REAL or SHADOW.", s)
      else if em = "SHADOW" then
        match simulate req.tool_name req.arguments s.infra with
        | none => (.internalError "TypeError in impact simulation", s)
        | some imp =>
          (.response { success := true, result := some (.shadowRes imp) }, s)
      else
        match execute_tool_function req.tool_name req.arguments s.infra with
        | .err m =>
          (.response { success := false, error := some ("Execution error: " ++ m) },
           s)
        | .ok r infra1 =>
          if req.tool_name = "restart_service" ∧ restart_mentions_success r then
            match req.arguments.service_name with
            | some sn =>
              if sn = "" then
                (.response { success := true, result := some (.toolRes r) },
                 { s with infra := infra1 })
              else
                (.response { success := true, result := some (.toolRes r) },
                 { s with
                   infra := set_service_health infra1 sn "healthy",
                   unhealthy_services :=
                     mark_service_healthy s.unhealthy_services sn })
            | none =>
              (.response { success := true, result := some (.toolRes r) },
               { s with infra := infra1 })
          else
            (.response { success := true, result := some (.toolRes r) },
             { s with infra := infra1 })

/-- `POST /policy/set-mode`: rejected (HTTP 400 from the ValueError) when the
mode is not declared, otherwise switches the current mode. -/
def set_mode (policy : PolicyDoc) (mode : String) (s : ServerState) :
    Bool × ServerState :=
  if (List.lookup mode policy.modes).isSome then
    (true, { s with current_mode := mode })
  else (false, s)

/-- Outcome of `POST /infrastructure/simulate-incident`: the success body
echoes `cloud_infra.services[service]` and the policy-tracking flag;
`keyErrorCrash` models the KeyError that this very line raises when the
service does not exist in the health map — note the mutations before it have
already happened. -/
inductive IncidentOutcome where
  | ok (infrastructure_status : String) (policy_tracking : Bool)
  | keyErrorCrash
deriving DecidableEq, Repr

/-- `simulate_incident`: writes the health map via `set_service_health` (a
silent no-op for an unknown service) and unconditionally updates the policy
engine's unhealthy set, then builds the response. -/
def simulate_incident (service status : String) (s : ServerState) :
    IncidentOutcome × ServerState :=
  let infra1 := set_service_health s.infra service status
  let unhealthy1 :=
    if status = "critical" ∨ status = "degraded" then
      register_unhealthy_service s.unhealthy_services service
    else mark_service_healthy s.unhealthy_services service
  let s1 : ServerState :=
    { infra := infra1, current_mode := s.current_mode,
      unhealthy_services := unhealthy1 }
  match List.lookup service infra1.services with
  | some h => (.ok h (unhealthy1.contains service), s1)
  | none => (.keyErrorCrash, s1)

/-- `POST /infrastructure/fix-service`: marks the service healthy in both
structures. -/
def fix_service (service : String) (s : ServerState) : ServerState :=
  { infra := set_service_health s.infra service "healthy",
    current_mode := s.current_mode,
    unhealthy_services := mark_service_healthy s.unhealthy_services service }

/-- The spec's registry invariant: the unhealthy set equals the set of
resources whose health-map value is degraded or critical. -/
def health_consistent (s : ServerState) : Bool :=
  s.unhealthy_services.all (fun n =>
    match List.lookup n s.infra.services with
    | some h => h == "degraded" || h == "critical"
    | none => false)
  && s.infra.services.all (fun p =>
    !(p.2 == "degraded" || p.2 == "critical") ||
      s.unhealthy_services.contains p.1)

/-- C3: the synchronization invariant fails on the code. From the initial
state (which satisfies it), simulating a critical incident for a service that
is not in the infrastructure health map registers it in the policy engine's
unhealthy set while `set_service_health` silently ignores it, so the two
structures diverge — and the endpoint itself then crashes with a KeyError
while the half-applied mutation persists. -/
theorem registry_divergence_on_unknown_incident :
    health_consistent initial_state = true ∧
    (simulate_incident "mystery" "critical" initial_state).2.unhealthy_services =
      ["mystery"] ∧
    List.lookup "mystery"
      (simulate_incident "mystery" "critical" initial_state).2.infra.services =
      none ∧
    health_consistent (simulate_incident "mystery" "critical" initial_state).2 =
      false ∧
    (simulate_incident "mystery" "critical" initial_state).1 = .keyErrorCrash := by
  decide

/-- C8: whenever `validate` denies a request (any tool other than the
status-check, which never reaches validation), the gateway returns the
structured denial — reason and message — and the entire server state
(health map, fleet size, execution log, unhealthy set, current mode) is
returned unchanged. -/
theorem deny_has_no_side_effects (policy : PolicyDoc) (req : ToolRequest)
    (s : ServerState) (message reason : String)
    (hne : req.tool_name ≠ "get_service_status")
    (hval : validate policy s.current_mode s.unhealthy_services req.tool_name
        req.arguments = .deny message reason) :
    execute_tool policy req s =
      (.response { success := false,
                   error := some ("Policy violation: " ++ reason),
                   policy_violation := true,
                   blocked_reason := some message }, s) := by
  simp [execute_tool, hne, hval]

theorem deny_has_no_side_effects_witness :
    execute_tool sample_policy
      { tool_name := "restart_service",
        arguments := { service_name := some "web-server" } } initial_state =
      (.response { success := false,
                   error := some ("Policy violation: Read-only mode"),
                   policy_violation := true,
                   blocked_reason :=
                     some (mode_block_message "restart_service" "NORMAL") },
       initial_state) :=
  deny_has_no_side_effects sample_policy
    { tool_name := "restart_service",
      arguments := { service_name := some "web-server" } } initial_state
    (mode_block_message "restart_service" "NORMAL") "Read-only mode"
    (by decide) (by decide)

/-- C10: `scale_fleet` rejects any count outside the closed interval 1..100
with an error result and an unchanged fleet size, and for any count inside
the interval reports success and sets the fleet size to the count. -/
theorem scale_fleet_bounds (count : Int) (infra : Infra) :
    ((count < 1 ∨ count > 100) →
      (∃ m, (scale_fleet infra count).1 = .scaleErr m) ∧
      (scale_fleet infra count).2.fleet_size = infra.fleet_size) ∧
    (1 ≤ count → count ≤ 100 →
      (scale_fleet infra count).1 = .scaleOk infra.fleet_size count ∧
      (scale_fleet infra count).2.fleet_size = count) := by
  constructor
  · intro h
    rcases h with h | h
    · simp [scale_fleet, h]
    · have h1 : ¬ count < 1 := by omega
      simp [scale_fleet, h1, h]
  · intro h1 h2
    have l1 : ¬ count < 1 := by omega
    have l2 : ¬ count > 100 := by omega
    simp [scale_fleet, l1, l2]

theorem scale_fleet_bounds_witness :
    ((∃ m, (scale_fleet initial_infra 0).1 = .scaleErr m) ∧
      (scale_fleet initial_infra 0).2.fleet_size = initial_infra.fleet_size) ∧
    ((scale_fleet initial_infra 5).1 = .scaleOk initial_infra.fleet_size 5 ∧
      (scale_fleet initial_infra 5).2.fleet_size = 5) :=
  ⟨(scale_fleet_bounds 0 initial_infra).1 (Or.inl (by decide)),
   (scale_fleet_bounds 5 initial_infra).2 (by decide) (by decide)⟩

/-- A schema-valid injected policy document whose single mode blocks every
tool including the log-read class; used to probe whether the read tools
really bypass the policy decision. -/
def lockdown_policy : PolicyDoc :=
  { always_blocked := ["delete_database"],
    modes :=
      [("LOCKDOWN",
        { allowed_tools := [],
          blocked_tools := ["read_logs", "list_services", "restart_service",
                            "scale_fleet", "delete_database"],
          rationale := "Incident freeze - no agent activity",
          service_restrictions_enabled := false })] }

def lockdown_state : ServerState :=
  { infra := initial_infra, current_mode := "LOCKDOWN",
    unhealthy_services := [] }

/-- C6 (amended): only `get_service_status` is executed immediately with no
policy decision — it succeeds under every policy document and every mode,
even one that globally blocks it, and its observation is fed back into the
unhealthy set — whereas `read_logs` and `list_services` are routed through
the policy decision like any other tool: whenever `validate` denies them the
gateway returns the denial. -/
theorem only_status_check_bypasses_policy (policy : PolicyDoc)
    (s : ServerState) :
    (∀ args : Args, args.count = none → args.lines = none →
      args.db_name = none →
      execute_tool policy { tool_name := "get_service_status",
                            arguments := args } s =
        (.response { success := true,
                     result := some (.toolRes (get_service_status s.infra
                       args.service_name).1) },
         { s with
           infra := (get_service_status s.infra args.service_name).2,
           unhealthy_services := update_unhealthy_services args.service_name
             (get_service_status s.infra args.service_name).2.services
             s.unhealthy_services })) ∧
    (∀ tool_name : String, ∀ args : Args, ∀ em message reason : String,
      (tool_name = "read_logs" ∨ tool_name = "list_services") →
      validate policy s.current_mode s.unhealthy_services tool_name args =
        .deny message reason →
      (execute_tool policy { tool_name := tool_name, arguments := args,
                             execution_mode := em } s).1 =
        .response { success := false,
                    error := some ("Policy violation: " ++ reason),
                    policy_violation := true,
                    blocked_reason := some message }) := by
  constructor
  · intro args hc hl hd
    simp [execute_tool, execute_tool_function, hc, hl, hd]
  · intro tool_name args em message reason htool hval
    have hne : tool_name ≠ "get_service_status" := by
      rcases htool with h | h <;> simp [h]
    simp [execute_tool, hne, hval]

theorem only_status_check_bypasses_policy_witness :
    execute_tool lockdown_policy { tool_name := "get_service_status" }
        lockdown_state =
      (.response { success := true,
                   result := some
                     (.toolRes (get_service_status lockdown_state.infra
                       none).1) },
       { lockdown_state with
         infra := (get_service_status lockdown_state.infra none).2,
         unhealthy_services := update_unhealthy_services none
           (get_service_status lockdown_state.infra none).2.services
           lockdown_state.unhealthy_services }) ∧
    (execute_tool lockdown_policy { tool_name := "read_logs" }
        lockdown_state).1 =
      .response { success := false,
                  error := some
                    ("Policy violation: Incident freeze - no agent activity"),
                  policy_violation := true,
                  blocked_reason :=
                    some (mode_block_message "read_logs" "LOCKDOWN") } :=
  ⟨(only_status_check_bypasses_policy lockdown_policy lockdown_state).1
     no_args rfl rfl rfl,
   (only_status_check_bypasses_policy lockdown_policy lockdown_state).2
     "read_logs" no_args "REAL"
     (mode_block_message "read_logs" "LOCKDOWN")
     "Incident freeze - no agent activity" (Or.inl rfl) (by decide)⟩

/-- C6 (counterexample to the claim as stated): `read_logs` — an
observational tool — IS passed through the policy decision, and under a
policy document whose current mode blocks it the gateway denies it with
`policy_violation = true`, against the claim that observational tools are
executed with no policy check and never denied in any mode. -/
theorem read_logs_denied_by_policy_counterexample :
    (execute_tool lockdown_policy { tool_name := "read_logs" }
        lockdown_state).1 =
      .response { success := false,
                  error := some
                    ("Policy violation: Incident freeze - no agent activity"),
                  policy_violation := true,
                  blocked_reason :=
                    some (mode_block_message "read_logs" "LOCKDOWN") } ∧
    (execute_tool lockdown_policy { tool_name := "read_logs" }
        lockdown_state).2.infra.execution_log = [] := by
  constructor
  · decide
  · decide

/-- C7 (amended): a request naming a tool that is missing from the tool map
is reported as an execution error — success false, policy_violation false,
state unchanged — only when it first passes policy validation (the REAL
execution path); an unknown tool that the current mode does not whitelist is
instead reported as a policy violation before execution is ever attempted. -/
theorem unknown_tool_execution_error (policy : PolicyDoc) (s : ServerState)
    (tool_name : String) (args : Args)
    (hset : tool_name ∉ ["get_service_status", "read_logs", "restart_service",
      "scale_fleet", "delete_database", "list_services"])
    (hval : validate policy s.current_mode s.unhealthy_services tool_name
        args = .allow) :
    execute_tool policy { tool_name := tool_name, arguments := args } s =
      (.response { success := false,
                   error := some
                     ("Execution error: " ++ ("Unknown tool: " ++ tool_name)) },
       s) := by
  have h1 : tool_name ≠ "get_service_status" := by intro h; exact hset (by simp [h])
  have h2 : tool_name ≠ "read_logs" := by intro h; exact hset (by simp [h])
  have h3 : tool_name ≠ "restart_service" := by intro h; exact hset (by simp [h])
  have h4 : tool_name ≠ "scale_fleet" := by intro h; exact hset (by simp [h])
  have h5 : tool_name ≠ "delete_database" := by intro h; exact hset (by simp [h])
  have h6 : tool_name ≠ "list_services" := by intro h; exact hset (by simp [h])
  have hem : normalize_execution_mode "REAL" = "REAL" := by decide
  simp [execute_tool, execute_tool_function, hem,
    h1, h2, h3, h4, h5, h6, hval]

/-- A schema-valid injected policy document that whitelists a tool name the
tool map does not implement; the only way an unknown tool reaches the
execution-error path. -/
def ghost_policy : PolicyDoc :=
  { always_blocked := [],
    modes :=
      [("NORMAL",
        { allowed_tools := ["ghost_tool"],
          blocked_tools := [],
          rationale := "Testing",
          service_restrictions_enabled := false })] }

theorem unknown_tool_execution_error_witness :
    execute_tool ghost_policy { tool_name := "ghost_tool" } initial_state =
      (.response { success := false,
                   error := some
                     ("Execution error: " ++
                       ("Unknown tool: " ++ "ghost_tool")) },
       initial_state) :=
  unknown_tool_execution_error ghost_policy initial_state "ghost_tool"
    no_args (by decide) (by decide)

/-- C7 (counterexample to the claim as stated): a request naming the
nonexistent tool launch_rockets in NORMAL mode is reported with
`policy_violation = true` (denied as not whitelisted), not as the distinct
execution error the claim promises for every mode and argument map. -/
theorem unknown_tool_reported_as_policy_violation_counterexample :
    (execute_tool sample_policy { tool_name := "launch_rockets" }
        initial_state).1 =
      .response { success := false,
                  error := some ("Policy violation: Not in allowed tools list"),
                  policy_violation := true,
                  blocked_reason :=
                    some (not_whitelisted_message "launch_rockets" "NORMAL") } := by
  decide

/-- Helper: pointwise update of an association list is visible to lookup. -/
theorem lookup_map_set (l : List (String × String)) (R v old : String)
    (h : List.lookup R l = some old) :
    List.lookup R (List.map (fun p => if p.1 = R then (p.1, v) else p) l) =
      some v := by
  induction l with
  | nil => simp at h
  | cons hd tl ih =>
    obtain ⟨k, w⟩ := hd
    by_cases hk : k = R
    · subst hk
      simp only [List.map_cons]
      simp [List.lookup]
    · have hne : (R == k) = false := by
        simp only [beq_eq_false_iff_ne]
        exact fun hh => hk hh.symm
      have h' : List.lookup R tl = some old := by
        simpa [List.lookup, hne] using h
      simp only [List.map_cons]
      rw [if_neg (show ¬ ((k, w).1 = R) from hk)]
      simp only [List.lookup, hne]
      exact ih h'

/-- A REAL-mode request to restart service R, as the agent wrapper sends it. -/
def restart_request (R : String) : ToolRequest :=
  { tool_name := "restart_service", arguments := { service_name := some R } }

/-- C9: recovery closes the gate. In EMERGENCY mode with the restriction
enabled, when a restart of an existing unhealthy target R passes policy, the
gateway reports success, R leaves the unhealthy set, its health-map entry
becomes healthy, and an immediately subsequent `validate` of the same restart
— with no intervening health mutation — denies with reason Target service is
not unhealthy. -/
theorem recovery_closes_gate (policy : PolicyDoc) (mp : ModePolicy)
    (s : ServerState) (R old_health : String)
    (hmode : s.current_mode = "EMERGENCY")
    (hm : List.lookup "EMERGENCY" policy.modes = some mp)
    (hflag : mp.service_restrictions_enabled = true)
    (hg : "restart_service" ∉ policy.always_blocked)
    (hb : "restart_service" ∉ mp.blocked_tools)
    (ha : "restart_service" ∈ mp.allowed_tools)
    (hR : R ≠ "")
    (hu : R ∈ s.unhealthy_services)
    (hsvc : List.lookup R s.infra.services = some old_health) :
    (execute_tool policy (restart_request R) s).1 =
      .response { success := true,
                  result := some (.toolRes (.restartOk R old_health)) } ∧
    R ∉ (execute_tool policy (restart_request R) s).2.unhealthy_services ∧
    List.lookup R
      (execute_tool policy (restart_request R) s).2.infra.services =
      some "healthy" ∧
    validate policy
        (execute_tool policy (restart_request R) s).2.current_mode
        (execute_tool policy (restart_request R) s).2.unhealthy_services
        "restart_service" { service_name := some R } =
      .deny (target_healthy_message R
          (execute_tool policy (restart_request R) s).2.unhealthy_services)
        "Target service is not unhealthy" := by
  have hval : validate policy s.current_mode s.unhealthy_services
      "restart_service" { service_name := some R } = .allow := by
    rw [hmode]
    simp [validate, hm, hg, hb, ha, hR, hflag, is_modification_tool,
      modification_tools, hu]
  have hrs1 : (restart_service s.infra R).1 =
      ToolResult.restartOk R old_health := by
    simp [restart_service, hsvc]
  have hrs2 : (restart_service s.infra R).2.services =
      List.map (fun p => if p.1 = R then (p.1, "healthy") else p)
        s.infra.services := by
    simp [restart_service, hsvc]
  have hem : normalize_execution_mode "REAL" = "REAL" := by decide
  have hstep : execute_tool policy (restart_request R) s =
      (.response { success := true,
                   result := some (.toolRes (.restartOk R old_health)) },
       { s with
         infra := set_service_health (restart_service s.infra R).2 R "healthy",
         unhealthy_services :=
           mark_service_healthy s.unhealthy_services R }) := by
    simp [execute_tool, restart_request, hval, execute_tool_function, hem,
      hrs1, restart_mentions_success, hR]
  have hlook2 : List.lookup R (restart_service s.infra R).2.services =
      some "healthy" := by
    rw [hrs2]
    exact lookup_map_set s.infra.services R "healthy" old_health hsvc
  have hlook : List.lookup R
      (set_service_health (restart_service s.infra R).2 R "healthy").services =
      some "healthy" := by
    simp only [set_service_health, hlook2]
    exact lookup_map_set _ R "healthy" "healthy" hlook2
  have hnot : R ∉ mark_service_healthy s.unhealthy_services R := by
    simp [mark_service_healthy]
  have hval2 : validate policy s.current_mode
      (mark_service_healthy s.unhealthy_services R) "restart_service"
      { service_name := some R } =
      .deny (target_healthy_message R
          (mark_service_healthy s.unhealthy_services R))
        "Target service is not unhealthy" := by
    rw [hmode]
    simp [validate, hm, hg, hb, ha, hR, hflag, is_modification_tool,
      modification_tools, hnot]
  refine ⟨?_, ?_, ?_, ?_⟩
  · rw [hstep]
  · rw [hstep]
    simpa using hnot
  · rw [hstep]
    simpa using hlook
  · rw [hstep]
    simpa using hval2

/-- A concrete pre-state for the recovery scenario: cache is critical and has
been observed (it is in both the health map and the unhealthy set), the mode
is EMERGENCY. -/
def recovery_state : ServerState :=
  { infra := { services := [("web-server", "healthy"), ("api-gateway", "healthy"),
                            ("database", "healthy"), ("cache", "critical"),
                            ("load-balancer", "healthy")],
               fleet_size := 3,
               execution_log := [] },
    current_mode := "EMERGENCY",
    unhealthy_services := ["cache"] }

theorem recovery_closes_gate_witness :
    (execute_tool sample_policy (restart_request "cache") recovery_state).1 =
      .response { success := true,
                  result := some (.toolRes (.restartOk "cache" "critical")) } ∧
    "cache" ∉ (execute_tool sample_policy (restart_request "cache")
        recovery_state).2.unhealthy_services ∧
    List.lookup "cache" (execute_tool sample_policy (restart_request "cache")
        recovery_state).2.infra.services = some "healthy" ∧
    validate sample_policy
        (execute_tool sample_policy (restart_request "cache")
          recovery_state).2.current_mode
        (execute_tool sample_policy (restart_request "cache")
          recovery_state).2.unhealthy_services
        "restart_service" { service_name := some "cache" } =
      .deny (target_healthy_message "cache"
          (execute_tool sample_policy (restart_request "cache")
            recovery_state).2.unhealthy_services)
        "Target service is not unhealthy" :=
  recovery_closes_gate sample_policy
    { allowed_tools := ["get_service_status", "read_logs", "list_services",
                        "restart_service", "scale_fleet"],
      blocked_tools := ["delete_database"],
      rationale := "Emergency corrective actions",
      service_restrictions_enabled := true }
    recovery_state "cache" "critical" (by decide) (by decide) (by decide)
    (by decide) (by decide) (by decide) (by decide) (by decide) (by decide)
